import Mathlib

/-!
Verification of the anomaly-detection core of the iot-tracker-ml repository
(`src/ml_detector.py`, used by `src/app.py`).

Modelling conventions:
* Python floats for latitude, longitude, speeds and scores are modelled as `ℚ`.
* A `datetime` value is modelled by its (possibly fractional) second count on
  the proleptic timeline, `Timestamp`.  `datetime.hour` and `datetime.weekday()`
  are derived arithmetically; the model keeps the essential guarantees
  (`hour ∈ [0, 23]`, `weekday ∈ [0, 6]`, subtraction of two timestamps gives
  the elapsed seconds, equal timestamps give elapsed time 0).
* The haversine great-circle computation of `calculate_speed` (lines 37-43 of
  `ml_detector.py`) is a chain of floating-point trigonometric calls; its
  numeric value is abstracted as a parameter `dist` giving the distance for a
  pair of coordinates.  Every theorem below is proved for an arbitrary `dist`,
  hence in particular for the haversine distance.
* The fitted `IsolationForest` is external library state.  Its two uses,
  `model.predict(...)[0]` and `model.score_samples(...)[0]`, are abstracted as
  parameters `fp` and `fs`, functions of the training matrix the model was fit
  on and of the query feature vector.  The `DetectorState` records the matrix
  passed to `model.fit` (`fittedOn`) and how many times `fit` was called
  (`fitCount`), so one-shot-training claims are expressible.
-/

namespace IoTTracker

/-- A point on the `datetime` timeline, measured in seconds (fractions allowed,
mirroring microsecond resolution). -/
structure Timestamp where
  secs : ℚ
deriving DecidableEq, Inhabited

/-- `datetime.hour`: hour-of-day of the timestamp, in `[0, 23]`. -/
def Timestamp.hour (t : Timestamp) : ℤ :=
  Int.emod ⌊t.secs / 3600⌋ 24

/-- `datetime.weekday()`: day-of-week of the timestamp, in `[0, 6]`
(the epoch day 0 of the proleptic timeline is a Monday). -/
def Timestamp.weekday (t : Timestamp) : ℤ :=
  Int.emod ⌊t.secs / 86400⌋ 7

/-- Difference of two timestamps in seconds, as in
`(loc2.timestamp - loc1.timestamp).total_seconds()`. -/
def Timestamp.sub (a b : Timestamp) : ℚ := a.secs - b.secs

/-- One history entry, the dict built in `add_location` / `predict`
(lines 21-27 and 94-100 of `ml_detector.py`). -/
structure Obs where
  lat : ℚ
  lon : ℚ
  timestamp : Timestamp
  hour : ℤ
  day_of_week : ℤ
deriving DecidableEq, Inhabited

/-- Build the observation dict from raw inputs, deriving `hour` and
`day_of_week` from the timestamp exactly as the dict literals do. -/
def mkObservation (lat lon : ℚ) (ts : Timestamp) : Obs :=
  { lat := lat, lon := lon, timestamp := ts, hour := ts.hour, day_of_week := ts.weekday }

/-- Abstracted haversine great-circle distance (km), as a function of
`lat1 lon1 lat2 lon2` (lines 37-43 of `ml_detector.py`). -/
abbrev DistFn := ℚ → ℚ → ℚ → ℚ → ℚ

/-- `LocationAnomalyDetector.calculate_speed` (lines 32-50): distance over
elapsed hours, with the zero-elapsed-time guard. -/
def calculate_speed (dist : DistFn) (loc1 loc2 : Obs) : ℚ :=
  let distance := dist loc1.lat loc1.lon loc2.lat loc2.lon
  let time_diff := (Timestamp.sub loc2.timestamp loc1.timestamp) / 3600
  if time_diff = 0 then 0 else distance / time_diff

/-- `LocationAnomalyDetector.extract_features` (lines 52-67).  The method reads
`self.location_history`, passed here explicitly; `location_history[-2]` is the
entry at index `length - 2`. -/
def extract_features (dist : DistFn) (location_history : List Obs) (location : Obs) :
    List ℚ :=
  if 1 < location_history.length then
    [location.lat, location.lon, (location.hour : ℚ), (location.day_of_week : ℚ),
      calculate_speed dist
        (location_history.getD (location_history.length - 2) default) location]
  else
    [location.lat, location.lon, (location.hour : ℚ), (location.day_of_week : ℚ), 0]

/-- The mutable fields of a `LocationAnomalyDetector`, plus bookkeeping of what
was passed to `model.fit` (`fittedOn`, `fitCount`) so that the model's
lifecycle is observable in the state. -/
structure DetectorState where
  is_trained : Bool
  location_history : List Obs
  fittedOn : Option (List (List ℚ))
  fitCount : ℕ
deriving DecidableEq

/-- `LocationAnomalyDetector.__init__` (lines 8-14). -/
def initState : DetectorState :=
  { is_trained := false, location_history := [], fittedOn := none, fitCount := 0 }

/-- `LocationAnomalyDetector.train` (lines 69-79): early `False` return below
20 points, otherwise fit on the feature matrix of the whole current history
and set `is_trained`. -/
def train (dist : DistFn) (s : DetectorState) : Bool × DetectorState :=
  if s.location_history.length < 20 then (false, s)
  else
    let X := s.location_history.map (extract_features dist s.location_history)
    (true,
      { s with fittedOn := some X, is_trained := true, fitCount := s.fitCount + 1 })

/-- `LocationAnomalyDetector.add_location` (lines 16-30): append the new
observation, then train once the threshold is reached while untrained. -/
def add_location (dist : DistFn) (s : DetectorState) (lat lon : ℚ) (ts : Timestamp) :
    DetectorState :=
  let s1 : DetectorState :=
    { s with location_history := s.location_history ++ [mkObservation lat lon ts] }
  if 20 ≤ s1.location_history.length ∧ s1.is_trained = false then (train dist s1).2
  else s1

/-- Result dict of `predict` (lines 84-89 and 121-126). -/
structure PredictResult where
  is_anomaly : Bool
  confidence : ℚ
  reason : String
  data_points : ℕ
deriving DecidableEq

/-- `model.predict(features)[0]`, abstracted as a function of the matrix the
model was fit on and of the query feature vector. -/
abbrev ForestLabel := List (List ℚ) → List ℚ → ℤ

/-- `model.score_samples(features)[0]`, abstracted the same way. -/
abbrev ForestScore := List (List ℚ) → List ℚ → ℚ

/-- Python `"{:.1f}".format` of a rational, used for the speed in the
high-speed reason string: one digit after the decimal point. -/
def fmt1 (q : ℚ) : String :=
  let n : ℤ := round (q * 10)
  toString (Int.ediv n 10) ++ "." ++ toString (Int.natAbs (Int.emod n 10))

/-- `LocationAnomalyDetector.predict` (lines 81-126).  The method mutates
nothing; the returned pair carries the (unchanged) state explicitly. -/
def predict (dist : DistFn) (fp : ForestLabel) (fs : ForestScore)
    (s : DetectorState) (lat lon : ℚ) (ts : Timestamp) :
    PredictResult × DetectorState :=
  if s.is_trained = false then
    ({ is_anomaly := false, confidence := 0,
       reason := "Model not trained yet (need 20+ data points)",
       data_points := s.location_history.length }, s)
  else
    let location := mkObservation lat lon ts
    let features := extract_features dist s.location_history location
    let X := s.fittedOn.getD []
    let prediction := fp X features
    let score := fs X features
    let confidence := |score|
    let reason :=
      if prediction = -1 then
        if 1 < s.location_history.length then
          let speed := calculate_speed dist
            (s.location_history.getD (s.location_history.length - 1) default) location
          if 100 < speed then
            "Unusually high speed detected: " ++ fmt1 speed ++ " km/h"
          else if location.hour < 6 ∨ 23 < location.hour then
            "Movement at unusual time"
          else
            "Location pattern is unusual"
        else "Normal behavior"
      else "Normal behavior"
    ({ is_anomaly := decide (prediction = -1), confidence := confidence,
       reason := reason, data_points := s.location_history.length }, s)

/-- Result dict of `get_stats` (lines 128-134). -/
structure StatsResult where
  is_trained : Bool
  total_points : ℤ
  points_needed : ℤ
deriving DecidableEq

/-- `LocationAnomalyDetector.get_stats` (lines 128-134); the method mutates
nothing, so the returned pair carries the unchanged state. -/
def get_stats (s : DetectorState) : StatsResult × DetectorState :=
  ({ is_trained := s.is_trained,
     total_points := (s.location_history.length : ℤ),
     points_needed := max 0 (20 - (s.location_history.length : ℤ)) }, s)

/-- One call arriving at the detector from the request handlers of
`src/app.py` (which invoke only `add_location`, `predict` and `get_stats`). -/
inductive Op where
  | addLoc (lat lon : ℚ) (ts : Timestamp)
  | predictOp (lat lon : ℚ) (ts : Timestamp)
  | statsOp

/-- Execute one operation against the detector state. -/
def step (dist : DistFn) (fp : ForestLabel) (fs : ForestScore)
    (s : DetectorState) : Op → DetectorState
  | Op.addLoc lat lon ts => add_location dist s lat lon ts
  | Op.predictOp lat lon ts => (predict dist fp fs s lat lon ts).2
  | Op.statsOp => (get_stats s).2

/-- Execute a sequence of operations starting from `s`. -/
def runFrom (dist : DistFn) (fp : ForestLabel) (fs : ForestScore)
    (s : DetectorState) (ops : List Op) : DetectorState :=
  ops.foldl (step dist fp fs) s

/-- Execute a sequence of operations on a freshly constructed detector. -/
def run (dist : DistFn) (fp : ForestLabel) (fs : ForestScore) (ops : List Op) :
    DetectorState :=
  runFrom dist fp fs initState ops

/-- The observations appended by a sequence of operations, in order. -/
def obsOf : List Op → List Obs
  | [] => []
  | Op.addLoc lat lon ts :: ops => mkObservation lat lon ts :: obsOf ops
  | Op.predictOp _ _ _ :: ops => obsOf ops
  | Op.statsOp :: ops => obsOf ops

/-- The `N×5` matrix handed to `model.fit` when training on history `h`
(line 74 of `ml_detector.py`). -/
def trainMatrix (dist : DistFn) (h : List Obs) : List (List ℚ) :=
  h.map (extract_features dist h)

/-- Closed form of the detector state reached after appending the observation
list `l` (in order) to a fresh detector: trained exactly from the 20th
observation on, fit exactly once, on the first-20 snapshot. -/
def reachState (dist : DistFn) (l : List Obs) : DetectorState :=
  { is_trained := decide (20 ≤ l.length),
    location_history := l,
    fittedOn := if 20 ≤ l.length then some (trainMatrix dist (l.take 20)) else none,
    fitCount := if 20 ≤ l.length then 1 else 0 }

/-- `generate_synthetic_data` (lines 137-160 of `ml_detector.py`), run when
the module is imported, on the module-level `detector`: 25 points near Chennai with hourly
timestamps.  `base_time` models `datetime.now()` and `noise i` the pair of
`random.uniform(-0.01, 0.01)` draws of iteration `i`. -/
def generate_synthetic_data (dist : DistFn) (base_time : ℚ) (noise : ℕ → ℚ × ℚ) :
    DetectorState :=
  (List.range 25).foldl
    (fun st i =>
      add_location dist st (13.0827 + (noise i).1) (80.2707 + (noise i).2)
        { secs := base_time + 3600 * (i : ℚ) })
    initState

/-- Concrete stand-in for the haversine distance, used in witnesses. -/
def zeroDist : DistFn := fun _ _ _ _ => 0

/-- Concrete model label function answering `-1` (anomaly) everywhere,
used in witnesses. -/
def anomalyLabel : ForestLabel := fun _ _ => -1

/-- Concrete model score function, used in witnesses. -/
def zeroScore : ForestScore := fun _ _ => 0

/-- Twenty ingestion calls, used in witnesses. -/
def twentyAdds : List Op := List.replicate 20 (Op.addLoc 0 0 { secs := 0 })

/-- A detector state holding nineteen points, one short of the training
threshold, used in witnesses. -/
def s19 : DetectorState :=
  { is_trained := false,
    location_history := List.replicate 19 (mkObservation 0 0 { secs := 0 }),
    fittedOn := none, fitCount := 0 }

/-- A small trained detector state, used in witnesses. -/
def sTrained2 : DetectorState :=
  { is_trained := true,
    location_history := [mkObservation 0 0 { secs := 0 }, mkObservation 0 0 { secs := 0 }],
    fittedOn := some [], fitCount := 1 }

/-- Noise draws that are all zero, used in witnesses. -/
def zeroNoise : ℕ → ℚ × ℚ := fun _ => (0, 0)

/-- Reason derivation of a trained `predict`, written from the spec's words
(section 4.5 of the spec; also claim C3): strict priority order
high-speed, then unusual hour, then unusual location, with `"Normal behavior"`
for a normal label.  `"At least one prior entry"` is the non-emptiness of the
history at query time. -/
def reasonSpec (dist : DistFn) (history : List Obs) (query : Obs)
    (anomaly : Bool) : String :=
  if anomaly then
    if 1 ≤ history.length ∧
        100 < calculate_speed dist (history.getD (history.length - 1) default) query then
      "Unusually high speed detected: " ++
        fmt1 (calculate_speed dist (history.getD (history.length - 1) default) query) ++
        " km/h"
    else if query.hour < 6 ∨ 23 < query.hour then
      "Movement at unusual time"
    else
      "Location pattern is unusual"
  else
    "Normal behavior"

/-! ### Helper lemmas -/

theorem string_data_append (a b : String) : (a ++ b).data = a.data ++ b.data := by
  cases a
  cases b
  rfl

theorem highspeed_reason_ne (x t : String) (ht : t.data.head? ≠ some 'U') :
    "Unusually high speed detected: " ++ x ++ " km/h" ≠ t := by
  intro h
  apply ht
  rw [← h, string_data_append, string_data_append]
  rfl

theorem Timestamp.hour_nonneg (t : Timestamp) : 0 ≤ t.hour :=
  Int.emod_nonneg _ (by decide)

theorem Timestamp.hour_lt (t : Timestamp) : t.hour < 24 :=
  Int.emod_lt_of_pos _ (by decide)

theorem predict_state_eq (dist : DistFn) (fp : ForestLabel) (fs : ForestScore)
    (s : DetectorState) (lat lon : ℚ) (ts : Timestamp) :
    (predict dist fp fs s lat lon ts).2 = s := by
  by_cases h : s.is_trained = false <;> simp [predict, h]

theorem extract_features_pos (dist : DistFn) (h : List Obs) (loc : Obs)
    (hl : 1 < h.length) :
    extract_features dist h loc =
      [loc.lat, loc.lon, (loc.hour : ℚ), (loc.day_of_week : ℚ),
        calculate_speed dist (h.getD (h.length - 2) default) loc] := by
  simp [extract_features, hl]

theorem add_location_reachState (dist : DistFn) (l : List Obs) (lat lon : ℚ)
    (ts : Timestamp) :
    add_location dist (reachState dist l) lat lon ts =
      reachState dist (l ++ [mkObservation lat lon ts]) := by
  have hl : (l ++ [mkObservation lat lon ts]).length = l.length + 1 := by simp
  rcases Nat.lt_or_ge l.length 19 with h | h
  · have h0 : ¬ 20 ≤ l.length := by omega
    have h1 : ¬ 20 ≤ l.length + 1 := by omega
    simp [add_location, reachState, h0, h1, hl]
  · rcases Nat.eq_or_lt_of_le h with h19 | h20
    · have h0 : ¬ 20 ≤ l.length := by omega
      have h1 : 20 ≤ l.length + 1 := by omega
      have h2 : ¬ l.length + 1 < 20 := by omega
      have htk : (l ++ [mkObservation lat lon ts]).take 20 =
          l ++ [mkObservation lat lon ts] :=
        List.take_of_length_le (by omega)
      simp [add_location, reachState, train, h0, h1, h2, hl, trainMatrix, htk]
    · have h0 : 20 ≤ l.length := by omega
      have h1 : 20 ≤ l.length + 1 := by omega
      have htk : (l ++ [mkObservation lat lon ts]).take 20 = l.take 20 :=
        List.take_append_of_le_length h0
      simp [add_location, reachState, h0, h1, hl, htk]

theorem runFrom_reachState (dist : DistFn) (fp : ForestLabel) (fs : ForestScore)
    (ops : List Op) :
    ∀ l : List Obs,
      runFrom dist fp fs (reachState dist l) ops = reachState dist (l ++ obsOf ops) := by
  induction ops with
  | nil => intro l; simp [runFrom, obsOf]
  | cons op ops ih =>
    intro l
    cases op with
    | addLoc lat lon ts =>
      have hstep : runFrom dist fp fs (reachState dist l) (Op.addLoc lat lon ts :: ops) =
          runFrom dist fp fs (add_location dist (reachState dist l) lat lon ts) ops := rfl
      rw [hstep, add_location_reachState, ih]
      simp [obsOf]
    | predictOp lat lon ts =>
      have hstep : runFrom dist fp fs (reachState dist l) (Op.predictOp lat lon ts :: ops) =
          runFrom dist fp fs
            (predict dist fp fs (reachState dist l) lat lon ts).2 ops := rfl
      rw [hstep, predict_state_eq, ih]
      simp [obsOf]
    | statsOp =>
      have hstep : runFrom dist fp fs (reachState dist l) (Op.statsOp :: ops) =
          runFrom dist fp fs (get_stats (reachState dist l)).2 ops := rfl
      rw [hstep]
      exact (ih l).trans (by simp [obsOf])

theorem initState_eq_reachState (dist : DistFn) : initState = reachState dist [] := by
  simp [initState, reachState]

theorem run_reachState (dist : DistFn) (fp : ForestLabel) (fs : ForestScore)
    (ops : List Op) :
    run dist fp fs ops = reachState dist (obsOf ops) := by
  rw [run, initState_eq_reachState dist, runFrom_reachState]
  simp

theorem predict_trained_spec (dist : DistFn) (fp : ForestLabel) (fs : ForestScore)
    (s : DetectorState) (lat lon : ℚ) (ts : Timestamp)
    (h : s.is_trained = true) (hl : 1 < s.location_history.length) :
    (predict dist fp fs s lat lon ts).1 =
      { is_anomaly := decide (fp (s.fittedOn.getD [])
          (extract_features dist s.location_history (mkObservation lat lon ts)) = -1),
        confidence := |fs (s.fittedOn.getD [])
          (extract_features dist s.location_history (mkObservation lat lon ts))|,
        reason := reasonSpec dist s.location_history (mkObservation lat lon ts)
          (decide (fp (s.fittedOn.getD [])
            (extract_features dist s.location_history (mkObservation lat lon ts)) = -1)),
        data_points := s.location_history.length } := by
  have h1 : ¬ s.is_trained = false := by simp [h]
  have h2 : 1 ≤ s.location_history.length := by omega
  by_cases hp : fp (s.fittedOn.getD [])
      (extract_features dist s.location_history (mkObservation lat lon ts)) = -1
  · by_cases hs : 100 < calculate_speed dist
        (s.location_history.getD (s.location_history.length - 1) default)
        (mkObservation lat lon ts)
    · simp [predict, reasonSpec, h1, h2, hl, hp, hs]
    · simp [predict, reasonSpec, h1, h2, hl, hp, hs]
  · simp [predict, reasonSpec, h1, hp]

/-! ### Claims -/

/-- C1: the training transition is one-shot.  Over every operation sequence on
a fresh detector, the final state is trained exactly when at least 20 points
were ingested, `fit` ran exactly once in that case (never otherwise), and the
matrix it received is the feature matrix of the history snapshot present when
the 20th point arrived (the first 20 ingested observations).  Instantiated at
every prefix of the sequence, this gives the flip exactly at the 20th point
and that `is_trained` never reverts. -/
theorem claim_C1_one_shot_training (dist : DistFn) (fp : ForestLabel)
    (fs : ForestScore) (ops : List Op) :
    (run dist fp fs ops).is_trained = decide (20 ≤ (obsOf ops).length) ∧
    (run dist fp fs ops).fitCount = (if 20 ≤ (obsOf ops).length then 1 else 0) ∧
    (run dist fp fs ops).fittedOn =
      (if 20 ≤ (obsOf ops).length then some (trainMatrix dist ((obsOf ops).take 20))
       else none) ∧
    (run dist fp fs ops).location_history = obsOf ops := by
  rw [run_reachState]
  exact ⟨rfl, rfl, rfl, rfl⟩

/-- C2: in every untrained state, `predict` returns exactly the
not-trained-yet result, with `data_points` the current history length, for any
input coordinates and timestamp. -/
theorem claim_C2_untrained_predict (dist : DistFn) (fp : ForestLabel)
    (fs : ForestScore) (s : DetectorState) (lat lon : ℚ) (ts : Timestamp)
    (h : s.is_trained = false) :
    (predict dist fp fs s lat lon ts).1 =
      { is_anomaly := false, confidence := 0,
        reason := "Model not trained yet (need 20+ data points)",
        data_points := s.location_history.length } := by
  simp [predict, h]

theorem claim_C2_untrained_predict_witness :
    initState.is_trained = false ∧
    (predict zeroDist anomalyLabel zeroScore initState 1 2 { secs := 0 }).1 =
      { is_anomaly := false, confidence := 0,
        reason := "Model not trained yet (need 20+ data points)",
        data_points := initState.location_history.length } :=
  ⟨rfl, claim_C2_untrained_predict zeroDist anomalyLabel zeroScore initState 1 2
    { secs := 0 } rfl⟩

/-- C3: in every trained state the detector can reach, `predict` returns
`is_anomaly` iff the model labels the query `-1`, confidence the absolute
value of the model's score, `data_points` the history length, and the reason
derived by the spec's strict priority order (`reasonSpec`): high speed against
the last history entry first, then unusual hour, then unusual location, and
`"Normal behavior"` for a normal label. -/
theorem claim_C3_trained_predict (dist : DistFn) (fp : ForestLabel)
    (fs : ForestScore) (ops : List Op) (lat lon : ℚ) (ts : Timestamp)
    (h : (run dist fp fs ops).is_trained = true) :
    (predict dist fp fs (run dist fp fs ops) lat lon ts).1 =
      { is_anomaly := decide (fp ((run dist fp fs ops).fittedOn.getD [])
          (extract_features dist (run dist fp fs ops).location_history
            (mkObservation lat lon ts)) = -1),
        confidence := |fs ((run dist fp fs ops).fittedOn.getD [])
          (extract_features dist (run dist fp fs ops).location_history
            (mkObservation lat lon ts))|,
        reason := reasonSpec dist (run dist fp fs ops).location_history
          (mkObservation lat lon ts)
          (decide (fp ((run dist fp fs ops).fittedOn.getD [])
            (extract_features dist (run dist fp fs ops).location_history
              (mkObservation lat lon ts)) = -1)),
        data_points := (run dist fp fs ops).location_history.length } := by
  have hr := run_reachState dist fp fs ops
  have hlen : 20 ≤ (obsOf ops).length := by
    by_contra hc
    rw [hr] at h
    simp [reachState, hc] at h
  have hl : 1 < (run dist fp fs ops).location_history.length := by
    rw [hr]
    simp only [reachState]
    omega
  exact predict_trained_spec dist fp fs (run dist fp fs ops) lat lon ts h hl

set_option maxRecDepth 8000 in
theorem claim_C3_trained_predict_witness :
    (run zeroDist anomalyLabel zeroScore twentyAdds).is_trained = true ∧
    (predict zeroDist anomalyLabel zeroScore
        (run zeroDist anomalyLabel zeroScore twentyAdds) 1 2 { secs := 3600 }).1 =
      { is_anomaly := decide (anomalyLabel
          ((run zeroDist anomalyLabel zeroScore twentyAdds).fittedOn.getD [])
          (extract_features zeroDist
            (run zeroDist anomalyLabel zeroScore twentyAdds).location_history
            (mkObservation 1 2 { secs := 3600 })) = -1),
        confidence := |zeroScore
          ((run zeroDist anomalyLabel zeroScore twentyAdds).fittedOn.getD [])
          (extract_features zeroDist
            (run zeroDist anomalyLabel zeroScore twentyAdds).location_history
            (mkObservation 1 2 { secs := 3600 }))|,
        reason := reasonSpec zeroDist
          (run zeroDist anomalyLabel zeroScore twentyAdds).location_history
          (mkObservation 1 2 { secs := 3600 })
          (decide (anomalyLabel
            ((run zeroDist anomalyLabel zeroScore twentyAdds).fittedOn.getD [])
            (extract_features zeroDist
              (run zeroDist anomalyLabel zeroScore twentyAdds).location_history
              (mkObservation 1 2 { secs := 3600 })) = -1)),
        data_points :=
          (run zeroDist anomalyLabel zeroScore twentyAdds).location_history.length } :=
  ⟨by decide, claim_C3_trained_predict zeroDist anomalyLabel zeroScore twentyAdds
    1 2 { secs := 3600 } (by decide)⟩

/-- C4: `get_stats` returns exactly the trained flag, the history length and
`max 0 (20 - length)`, changes no state, and two consecutive calls agree. -/
theorem claim_C4_get_stats (s : DetectorState) :
    get_stats s =
      ({ is_trained := s.is_trained,
         total_points := (s.location_history.length : ℤ),
         points_needed := max 0 (20 - (s.location_history.length : ℤ)) }, s) ∧
    (get_stats (get_stats s).2).1 = (get_stats s).1 :=
  ⟨rfl, rfl⟩

/-- C5: the extracted feature vector is the ordered 5-tuple
`[lat, lon, hour, day_of_week, speed]`, where the speed slot is the speed from
the second-to-last history entry to the observation when the history holds at
least two entries, and `0` when it holds fewer. -/
theorem claim_C5_feature_vector (dist : DistFn) (history : List Obs)
    (location : Obs) :
    extract_features dist history location =
      [location.lat, location.lon, (location.hour : ℚ), (location.day_of_week : ℚ),
        if 2 ≤ history.length then
          calculate_speed dist (history.getD (history.length - 2) default) location
        else 0] := by
  by_cases h : 1 < history.length
  · have h2 : 2 ≤ history.length := h
    simp [extract_features, h, h2]
  · have h2 : ¬ 2 ≤ history.length := h
    simp [extract_features, h, h2]

/-- C6: two observations with equal timestamps give speed `0`, whatever the
distance between the coordinates: the zero elapsed time is caught by the
guard, not a division fault. -/
theorem claim_C6_zero_elapsed_speed (dist : DistFn) (a b : Obs)
    (h : a.timestamp = b.timestamp) :
    calculate_speed dist a b = 0 := by
  simp [calculate_speed, Timestamp.sub, h]

theorem claim_C6_zero_elapsed_speed_witness :
    (mkObservation 10 20 { secs := 5 }).timestamp =
      (mkObservation 30 40 { secs := 5 }).timestamp ∧
    calculate_speed (fun _ _ _ _ => 1000) (mkObservation 10 20 { secs := 5 })
      (mkObservation 30 40 { secs := 5 }) = 0 :=
  ⟨rfl, claim_C6_zero_elapsed_speed (fun _ _ _ _ => 1000)
    (mkObservation 10 20 { secs := 5 }) (mkObservation 30 40 { secs := 5 }) rfl⟩

/-- C7: when the training transition fires (untrained, and the append reaches
the threshold), `fit` receives the matrix whose row for each history entry is
that entry's feature vector extracted against the full new snapshot; in
particular every row's speed slot is computed from the same fixed
second-to-last entry of the snapshot to the row's own observation. -/
theorem claim_C7_train_snapshot (dist : DistFn) (s : DetectorState)
    (lat lon : ℚ) (ts : Timestamp)
    (h : s.is_trained = false) (hl : 19 ≤ s.location_history.length) :
    (add_location dist s lat lon ts).fittedOn =
      some ((s.location_history ++ [mkObservation lat lon ts]).map (fun loc =>
        [loc.lat, loc.lon, (loc.hour : ℚ), (loc.day_of_week : ℚ),
          calculate_speed dist
            ((s.location_history ++ [mkObservation lat lon ts]).getD
              ((s.location_history ++ [mkObservation lat lon ts]).length - 2) default)
            loc])) := by
  have h2 : ¬ s.location_history.length + 1 < 20 := by omega
  have hmap : (s.location_history ++ [mkObservation lat lon ts]).map
      (extract_features dist (s.location_history ++ [mkObservation lat lon ts])) =
      (s.location_history ++ [mkObservation lat lon ts]).map (fun loc =>
        [loc.lat, loc.lon, (loc.hour : ℚ), (loc.day_of_week : ℚ),
          calculate_speed dist
            ((s.location_history ++ [mkObservation lat lon ts]).getD
              ((s.location_history ++ [mkObservation lat lon ts]).length - 2) default)
            loc]) := by
    apply List.map_congr_left
    intro loc _
    exact extract_features_pos dist _ loc (by simp; omega)
  simp [add_location, train, h, hl, h2, hmap]

theorem claim_C7_train_snapshot_witness :
    s19.is_trained = false ∧ 19 ≤ s19.location_history.length ∧
    (add_location zeroDist s19 1 2 { secs := 3600 }).fittedOn =
      some ((s19.location_history ++ [mkObservation 1 2 { secs := 3600 }]).map
        (fun loc =>
          [loc.lat, loc.lon, (loc.hour : ℚ), (loc.day_of_week : ℚ),
            calculate_speed zeroDist
              ((s19.location_history ++ [mkObservation 1 2 { secs := 3600 }]).getD
                ((s19.location_history ++
                  [mkObservation 1 2 { secs := 3600 }]).length - 2) default)
              loc])) :=
  ⟨rfl, by decide,
    claim_C7_train_snapshot zeroDist s19 1 2 { secs := 3600 } rfl (by decide)⟩

/-- C8: `predict` never mutates the detector: in every state, trained or not,
and for every input, the state after the call (history and trained flag
included) is the state before it; the query observation is never persisted. -/
theorem claim_C8_predict_no_mutation (dist : DistFn) (fp : ForestLabel)
    (fs : ForestScore) (s : DetectorState) (lat lon : ℚ) (ts : Timestamp) :
    (predict dist fp fs s lat lon ts).2 = s :=
  predict_state_eq dist fp fs s lat lon ts

theorem generate_synthetic_data_eq (dist : DistFn) (fp : ForestLabel)
    (fs : ForestScore) (base_time : ℚ) (noise : ℕ → ℚ × ℚ) :
    generate_synthetic_data dist base_time noise =
      run dist fp fs ((List.range 25).map (fun i =>
        Op.addLoc (13.0827 + (noise i).1) (80.2707 + (noise i).2)
          { secs := base_time + 3600 * (i : ℚ) })) := by
  rw [run, runFrom, List.foldl_map]
  rfl

theorem obsOf_map_addLoc {α : Type} (l : List α) (a b : α → ℚ)
    (c : α → Timestamp) :
    obsOf (l.map (fun i => Op.addLoc (a i) (b i) (c i))) =
      l.map (fun i => mkObservation (a i) (b i) (c i)) := by
  induction l with
  | nil => rfl
  | cons x xs ih => simp [obsOf, ih]

theorem predict_reason_ne_untrained (dist : DistFn) (fp : ForestLabel)
    (fs : ForestScore) (s : DetectorState) (lat lon : ℚ) (ts : Timestamp)
    (h : s.is_trained = true) :
    (predict dist fp fs s lat lon ts).1.reason ≠
      "Model not trained yet (need 20+ data points)" := by
  have h1 : ¬ s.is_trained = false := by simp [h]
  simp only [predict, if_neg h1]
  split
  · split
    · split
      · exact highspeed_reason_ne _ _ (by decide)
      · split
        · decide
        · decide
    · decide
  · decide

/-- C9: at the end of importing the detector module, the singleton detector
has ingested exactly 25 synthetic observations clustered within 0.01 degrees
of `(13.0827, 80.2707)` at hourly timestamps, and is trained; consequently
every state reachable through the request handlers keeps at least 25 points,
stays trained, reports `points_needed = 0`, and the untrained predict
response can never be returned. -/
theorem claim_C9_import_time_training (dist : DistFn) (fp : ForestLabel)
    (fs : ForestScore) (base_time : ℚ) (noise : ℕ → ℚ × ℚ)
    (hb : ∀ i, i < 25 → |(noise i).1| ≤ 1/100 ∧ |(noise i).2| ≤ 1/100)
    (ops : List Op) :
    (generate_synthetic_data dist base_time noise).location_history.length = 25 ∧
    (generate_synthetic_data dist base_time noise).is_trained = true ∧
    (∀ i, i < 25 →
      |((generate_synthetic_data dist base_time noise).location_history.getD i
          default).lat - 13.0827| ≤ 1/100 ∧
      |((generate_synthetic_data dist base_time noise).location_history.getD i
          default).lon - 80.2707| ≤ 1/100 ∧
      ((generate_synthetic_data dist base_time noise).location_history.getD i
          default).timestamp = { secs := base_time + 3600 * (i : ℚ) }) ∧
    (runFrom dist fp fs (generate_synthetic_data dist base_time noise) ops).is_trained
      = true ∧
    25 ≤ (runFrom dist fp fs (generate_synthetic_data dist base_time noise)
      ops).location_history.length ∧
    (get_stats (runFrom dist fp fs (generate_synthetic_data dist base_time noise)
      ops)).1.points_needed = 0 ∧
    (∀ lat lon : ℚ, ∀ ts : Timestamp,
      (predict dist fp fs
        (runFrom dist fp fs (generate_synthetic_data dist base_time noise) ops)
        lat lon ts).1.reason ≠
          "Model not trained yet (need 20+ data points)") := by
  have hg := generate_synthetic_data_eq dist fp fs base_time noise
  have hobs : obsOf ((List.range 25).map (fun i =>
      Op.addLoc (13.0827 + (noise i).1) (80.2707 + (noise i).2)
        { secs := base_time + 3600 * (i : ℚ) })) =
      (List.range 25).map (fun i =>
        mkObservation (13.0827 + (noise i).1) (80.2707 + (noise i).2)
          { secs := base_time + 3600 * (i : ℚ) }) :=
    obsOf_map_addLoc (List.range 25) _ _ _
  have h0 : generate_synthetic_data dist base_time noise =
      reachState dist ((List.range 25).map (fun i =>
        mkObservation (13.0827 + (noise i).1) (80.2707 + (noise i).2)
          { secs := base_time + 3600 * (i : ℚ) })) := by
    rw [hg, run_reachState, hobs]
  have hLlen : ((List.range 25).map (fun i =>
      mkObservation (13.0827 + (noise i).1) (80.2707 + (noise i).2)
        { secs := base_time + 3600 * (i : ℚ) })).length = 25 := by simp
  have h1 : runFrom dist fp fs (generate_synthetic_data dist base_time noise) ops =
      reachState dist (((List.range 25).map (fun i =>
        mkObservation (13.0827 + (noise i).1) (80.2707 + (noise i).2)
          { secs := base_time + 3600 * (i : ℚ) })) ++ obsOf ops) := by
    rw [h0, runFrom_reachState]
  have hslen : (((List.range 25).map (fun i =>
      mkObservation (13.0827 + (noise i).1) (80.2707 + (noise i).2)
        { secs := base_time + 3600 * (i : ℚ) })) ++ obsOf ops).length =
      25 + (obsOf ops).length := by
    rw [List.length_append, hLlen]
  have htr : (runFrom dist fp fs (generate_synthetic_data dist base_time noise)
      ops).is_trained = true := by
    rw [h1]
    simp only [reachState, decide_eq_true_eq, hslen]
    omega
  refine ⟨?_, ?_, ?_, htr, ?_, ?_, ?_⟩
  · rw [h0]
    simp only [reachState]
    exact hLlen
  · rw [h0]
    simp only [reachState, decide_eq_true_eq, hLlen]
    omega
  · intro i hi
    have hidx : i < ((List.range 25).map (fun i =>
        mkObservation (13.0827 + (noise i).1) (80.2707 + (noise i).2)
          { secs := base_time + 3600 * (i : ℚ) })).length := by omega
    have hget : ((List.range 25).map (fun i =>
        mkObservation (13.0827 + (noise i).1) (80.2707 + (noise i).2)
          { secs := base_time + 3600 * (i : ℚ) })).getD i default =
        mkObservation (13.0827 + (noise i).1) (80.2707 + (noise i).2)
          { secs := base_time + 3600 * (i : ℚ) } := by
      rw [List.getD_eq_getElem _ _ hidx]
      simp
    rw [h0]
    simp only [reachState]
    rw [hget]
    refine ⟨?_, ?_, rfl⟩
    · show |13.0827 + (noise i).1 - 13.0827| ≤ 1/100
      rw [add_sub_cancel_left]
      exact (hb i hi).1
    · show |80.2707 + (noise i).2 - 80.2707| ≤ 1/100
      rw [add_sub_cancel_left]
      exact (hb i hi).2
  · rw [h1]
    simp only [reachState, hslen]
    omega
  · rw [h1]
    simp only [get_stats, reachState]
    rw [max_eq_left]
    rw [hslen]
    push_cast
    omega
  · intro lat lon ts
    exact predict_reason_ne_untrained dist fp fs _ lat lon ts htr

theorem claim_C9_import_time_training_witness :
    (∀ i, i < 25 → |(zeroNoise i).1| ≤ 1/100 ∧ |(zeroNoise i).2| ≤ 1/100) ∧
    ((generate_synthetic_data zeroDist 0 zeroNoise).location_history.length = 25 ∧
    (generate_synthetic_data zeroDist 0 zeroNoise).is_trained = true ∧
    (∀ i, i < 25 →
      |((generate_synthetic_data zeroDist 0 zeroNoise).location_history.getD i
          default).lat - 13.0827| ≤ 1/100 ∧
      |((generate_synthetic_data zeroDist 0 zeroNoise).location_history.getD i
          default).lon - 80.2707| ≤ 1/100 ∧
      ((generate_synthetic_data zeroDist 0 zeroNoise).location_history.getD i
          default).timestamp = { secs := (0 : ℚ) + 3600 * (i : ℚ) }) ∧
    (runFrom zeroDist anomalyLabel zeroScore
      (generate_synthetic_data zeroDist 0 zeroNoise) []).is_trained = true ∧
    25 ≤ (runFrom zeroDist anomalyLabel zeroScore
      (generate_synthetic_data zeroDist 0 zeroNoise) []).location_history.length ∧
    (get_stats (runFrom zeroDist anomalyLabel zeroScore
      (generate_synthetic_data zeroDist 0 zeroNoise) [])).1.points_needed = 0 ∧
    (∀ lat lon : ℚ, ∀ ts : Timestamp,
      (predict zeroDist anomalyLabel zeroScore
        (runFrom zeroDist anomalyLabel zeroScore
          (generate_synthetic_data zeroDist 0 zeroNoise) [])
        lat lon ts).1.reason ≠
          "Model not trained yet (need 20+ data points)")) :=
  ⟨fun i _ => ⟨by simp [zeroNoise], by simp [zeroNoise]⟩,
    claim_C9_import_time_training zeroDist anomalyLabel zeroScore 0 zeroNoise
      (fun i _ => ⟨by simp [zeroNoise], by simp [zeroNoise]⟩) []⟩

/-- C10: an observation's hour, derived from its timestamp, always lies in
`[0, 23]`, so the `hour > 23` disjunct of the reason derivation never fires:
`predict` can return `"Movement at unusual time"` only when the query
observation's hour is strictly less than 6. -/
theorem claim_C10_unusual_time_only_early (dist : DistFn) (fp : ForestLabel)
    (fs : ForestScore) (s : DetectorState) (lat lon : ℚ) (ts : Timestamp) :
    (0 ≤ (mkObservation lat lon ts).hour ∧ (mkObservation lat lon ts).hour ≤ 23) ∧
    ((predict dist fp fs s lat lon ts).1.reason = "Movement at unusual time" →
      (mkObservation lat lon ts).hour < 6) := by
  have hbound : ts.hour < 24 := Timestamp.hour_lt ts
  constructor
  · exact ⟨Timestamp.hour_nonneg ts, by
      show ts.hour ≤ 23
      omega⟩
  · intro hr
    by_cases h : s.is_trained = false
    · rw [show (predict dist fp fs s lat lon ts).1.reason =
          "Model not trained yet (need 20+ data points)" by simp [predict, h]] at hr
      exact absurd hr (by decide)
    · simp only [predict, if_neg h] at hr
      split at hr
      · split at hr
        · split at hr
          · exact absurd hr (highspeed_reason_ne _ _ (by decide))
          · rename_i hcond0
            split at hr
            · rename_i hcond
              rcases hcond with hc | hc
              · exact hc
              · show ts.hour < 6
                have hc2 : 23 < ts.hour := hc
                omega
            · exact absurd hr (by decide)
        · exact absurd hr (by decide)
      · exact absurd hr (by decide)

theorem predict_eval_unusual_time :
    (predict zeroDist anomalyLabel zeroScore sTrained2 1 2 { secs := 10800 }).1.reason =
      "Movement at unusual time" := by
  have hh : Timestamp.hour { secs := (10800 : ℚ) } = 3 := by
    have hf : (⌊(10800 : ℚ) / 3600⌋ : ℤ) = 3 := by norm_num
    rw [Timestamp.hour, hf]
    decide
  have hspeed : calculate_speed zeroDist
      (sTrained2.location_history.getD (sTrained2.location_history.length - 1) default)
      (mkObservation 1 2 { secs := 10800 }) = 0 := by
    simp [calculate_speed, zeroDist]
  simp [predict, sTrained2, anomalyLabel, mkObservation, hh] at hspeed ⊢
  rw [hspeed]
  norm_num

theorem claim_C10_unusual_time_only_early_witness :
    (predict zeroDist anomalyLabel zeroScore sTrained2 1 2 { secs := 10800 }).1.reason =
      "Movement at unusual time" ∧
    (mkObservation 1 2 { secs := 10800 }).hour < 6 :=
  ⟨predict_eval_unusual_time,
    (claim_C10_unusual_time_only_early zeroDist anomalyLabel zeroScore sTrained2
      1 2 { secs := 10800 }).2 predict_eval_unusual_time⟩

end IoTTracker
